import Mathlib

/-!
Shallow embedding of the hc-homie5-smarthome convention layer.

The repository maps smart-home capabilities (switch, dimmer, shutter,
thermostat, sensors, ...) onto the Homie 5 device/property protocol: each
node type turns a small configuration into a declarative property schema,
and turns inbound property-set messages back into typed domain events.

Pure functions of the repository (action enums, string conversions, schema
builders, publishers, dispatchers) are translated directly from the Rust
source. Primitives of the external homie5 protocol library (value codec,
description builders, reference matching, publish packaging) are not part
of this repository; they are modelled from the specification and carry a
doc comment starting with "Modelled from the spec:".
-/

/-- Error type of the external homie5 library as used by this repository:
the only error the decode paths of the repository produce is InvalidPayload;
the spec additionally names OutOfRange for range violations. -/
inductive Homie5ProtocolError where
  | InvalidPayload
  | OutOfRange
deriving DecidableEq, Repr

/-- Decidable equality for Except results, used to evaluate the decode
functions on concrete inputs. -/
instance {ε α : Type} [DecidableEq ε] [DecidableEq α] : DecidableEq (Except ε α) := by
  intro a b
  cases a <;> cases b
  case error.error x y | ok.ok x y =>
    exact if h : x = y then Decidable.isTrue (by rw [h]) else
      Decidable.isFalse (by intro hc; cases hc; exact h rfl)
  all_goals exact Decidable.isFalse (by intro hc; cases hc)

/-- Primitive datatypes of Homie 5 properties (homie5::HomieDataType). -/
inductive HomieDataType where
  | boolean
  | integer
  | float
  | enum
  | datetime
  | str
  | color
deriving DecidableEq, Repr

/-- Boolean word pair of a boolean property format (homie5 BooleanFormat). -/
structure BooleanFormat where
  false_val : String
  true_val : String
deriving DecidableEq, Repr

/-- Value format of a property (homie5 HomiePropertyFormat): boolean word
pair, ordered enum token list, integer or float range, or unspecified.
Float bounds are modelled as rationals. -/
inductive HomiePropertyFormat where
  | Boolean (bf : BooleanFormat)
  | Enum (tokens : List String)
  | IntegerRange (min max step : Option Int)
  | FloatRange (min max step : Option Rat)
  | NotSpecified
deriving DecidableEq, Repr

/-- Float range record used by the thermostat config (homie5 FloatRange),
with rational bounds standing in for f64. -/
structure FloatRange where
  min : Option Rat
  max : Option Rat
  step : Option Rat
deriving DecidableEq, Repr

/-- Modelled from the spec: the property description produced by the
external PropertyDescriptionBuilder of the homie5 library. One property:
display name, primitive datatype, value format, unit, settable and
retained flags (spec section 3, PropertyDescriptor). -/
structure HomiePropertyDescription where
  name : Option String
  datatype : HomieDataType
  format : HomiePropertyFormat
  settable : Bool
  retained : Bool
  unit : Option String
deriving DecidableEq, Repr

/-- Modelled from the spec: the initial state of the external
PropertyDescriptionBuilder (PropertyDescriptionBuilder::new of the homie5
library). Defaults: no name, no format, not settable, retained, no unit;
every repository call site overrides the flags it cares about explicitly. -/
def PropertyDescriptionBuilder.new (datatype : HomieDataType) : HomiePropertyDescription :=
  { name := none
    datatype := datatype
    format := HomiePropertyFormat.NotSpecified
    settable := false
    retained := true
    unit := none }

/-- Node description (homie5 HomieNodeDescription): display name, node type
tag and the ordered list of property descriptors keyed by property id. -/
structure HomieNodeDescription where
  name : Option String
  node_type : Option String
  properties : List (String × HomiePropertyDescription)
deriving DecidableEq, Repr

/-- Modelled from the spec: the empty NodeDescriptionBuilder of the external
homie5 library (NodeDescriptionBuilder::new). -/
def NodeDescriptionBuilder.new : HomieNodeDescription :=
  { name := none, node_type := none, properties := [] }

/-- Modelled from the spec: NodeDescriptionBuilder::add_property of the
external homie5 library: appends one property descriptor under its id,
preserving declaration order (spec section 4.2). -/
def HomieNodeDescription.add_property (db : HomieNodeDescription) (id : String)
    (p : HomiePropertyDescription) : HomieNodeDescription :=
  { db with properties := db.properties ++ [(id, p)] }

/-- Modelled from the spec: NodeDescriptionBuilder::add_property_cond of the
external homie5 library: evaluates the boolean gate and includes the
property only when true, building the descriptor lazily from a factory
(spec section 4.2, conditional inclusion). -/
def HomieNodeDescription.add_property_cond (db : HomieNodeDescription) (id : String)
    (cond : Bool) (f : Unit → HomiePropertyDescription) : HomieNodeDescription :=
  if cond then db.add_property id (f ()) else db

/-- Runtime address of a node (homie5 NodeRef): homie domain, device id and
node id. -/
@[ext]
structure NodeRef where
  homie_domain : String
  device_id : String
  node_id : String
deriving DecidableEq, Repr

/-- Runtime address of a device (homie5 DeviceRef): homie domain and device
id. -/
structure DeviceRef where
  homie_domain : String
  device_id : String
deriving DecidableEq, Repr

/-- Target address of a property (homie5 PropertyRef): owning node address
plus the property id. -/
structure PropertyRef where
  node : NodeRef
  prop_id : String
deriving DecidableEq, Repr

/-- Modelled from the spec: PropertyRef::match_with_node of the external
homie5 library: the ownership filtering guard comparing the target node
address and property id with the given ones (spec section 4.4 step 1). -/
def PropertyRef.match_with_node (property : PropertyRef) (node : NodeRef)
    (prop_id : String) : Bool :=
  decide (property.node = node) && decide (property.prop_id = prop_id)

/-- Modelled from the spec: PropertyRef::match_with_device of the external
homie5 library: compares the target node address against a device address
plus node id, and the property id (spec section 4.4 step 1). -/
def PropertyRef.match_with_device (property : PropertyRef) (device : DeviceRef)
    (node_id prop_id : String) : Bool :=
  decide (property.node.homie_domain = device.homie_domain) &&
  decide (property.node.device_id = device.device_id) &&
  decide (property.node.node_id = node_id) &&
  decide (property.prop_id = prop_id)

/-- Device-side protocol handle (homie5 Homie5DeviceProtocol), reduced to
the identity data the repository reads from it: homie domain and device
id. -/
structure Homie5DeviceProtocol where
  homie_domain : String
  device_id : String
deriving DecidableEq, Repr

/-- Modelled from the spec: Homie5DeviceProtocol::device_ref of the
external homie5 library, the device address of the client. -/
def Homie5DeviceProtocol.device_ref (client : Homie5DeviceProtocol) : DeviceRef :=
  { homie_domain := client.homie_domain, device_id := client.device_id }

/-- Modelled from the spec: the abstract outbound message of the external
publish sink (spec section 6): target node and property address, encoded
string payload, retained flag, and whether it addresses the target slot of
the property rather than its value. -/
structure Publish where
  homie_domain : String
  device_id : String
  node_id : String
  prop_id : String
  payload : String
  retain : Bool
  is_target : Bool
deriving DecidableEq, Repr

/-- Modelled from the spec: Homie5DeviceProtocol::publish_value of the
external homie5 library: packages an encoded value with the retained flag
for the value slot of the addressed property (spec sections 4.3 and 6). -/
def Homie5DeviceProtocol.publish_value (client : Homie5DeviceProtocol)
    (node_id prop_id payload : String) (retained : Bool) : Publish :=
  { homie_domain := client.homie_domain
    device_id := client.device_id
    node_id := node_id
    prop_id := prop_id
    payload := payload
    retain := retained
    is_target := false }

/-- Modelled from the spec: Homie5DeviceProtocol::publish_target of the
external homie5 library: like publish_value but addressing the target slot
of the property (spec sections 4.3 and 6). -/
def Homie5DeviceProtocol.publish_target (client : Homie5DeviceProtocol)
    (node_id prop_id payload : String) (retained : Bool) : Publish :=
  { homie_domain := client.homie_domain
    device_id := client.device_id
    node_id := node_id
    prop_id := prop_id
    payload := payload
    retain := retained
    is_target := true }

/-- Typed wire value (homie5 HomieValue), restricted to the variants the
repository matches on. -/
inductive HomieValue where
  | Bool (b : Bool)
  | Integer (v : Int)
  | Float (v : Rat)
  | Enum (s : String)
  | Str (s : String)
deriving DecidableEq, Repr

/-- Modelled from the spec: the value codec of the external homie5 library
(HomieValue::parse), decoding a raw wire string against a property
description (spec section 4.1): a boolean word pair is matched exactly and
case-sensitively; an integer literal is parsed and checked against the
declared min and max, with step advisory only; an enum payload must equal
one of the allowed tokens. Variants the repository never dispatches on
(float, datetime, color, free string) are rejected. -/
def HomieValue.parse (raw : String) (prop_desc : HomiePropertyDescription) :
    Except Homie5ProtocolError HomieValue :=
  match prop_desc.datatype, prop_desc.format with
  | HomieDataType.boolean, HomiePropertyFormat.Boolean bf =>
      if raw = bf.false_val then Except.ok (HomieValue.Bool false)
      else if raw = bf.true_val then Except.ok (HomieValue.Bool true)
      else Except.error Homie5ProtocolError.InvalidPayload
  | HomieDataType.boolean, _ =>
      if raw = "false" then Except.ok (HomieValue.Bool false)
      else if raw = "true" then Except.ok (HomieValue.Bool true)
      else Except.error Homie5ProtocolError.InvalidPayload
  | HomieDataType.integer, HomiePropertyFormat.IntegerRange rmin rmax _ =>
      match raw.toInt? with
      | some v =>
          if rmin.all (fun m => decide (m ≤ v)) && rmax.all (fun m => decide (v ≤ m)) then
            Except.ok (HomieValue.Integer v)
          else Except.error Homie5ProtocolError.OutOfRange
      | none => Except.error Homie5ProtocolError.InvalidPayload
  | HomieDataType.integer, _ =>
      match raw.toInt? with
      | some v => Except.ok (HomieValue.Integer v)
      | none => Except.error Homie5ProtocolError.InvalidPayload
  | HomieDataType.enum, HomiePropertyFormat.Enum tokens =>
      if tokens.contains raw then Except.ok (HomieValue.Enum raw)
      else Except.error Homie5ProtocolError.InvalidPayload
  | _, _ => Except.error Homie5ProtocolError.InvalidPayload

/-- Device description (homie5 HomieDeviceDescription), reduced to the node
descriptions keyed by node id. -/
structure HomieDeviceDescription where
  nodes : List (String × HomieNodeDescription)
deriving DecidableEq, Repr

/-- Modelled from the spec: HomieDeviceDescription::with_property of the
external homie5 library: looks up the addressed property description by
node id then property id (spec section 4.4 step 2) and applies the given
continuation, returning none when the property is not in the schema. -/
def HomieDeviceDescription.with_property {α : Type}
    (desc : HomieDeviceDescription) (property : PropertyRef)
    (f : HomiePropertyDescription → α) : Option α :=
  (desc.nodes.lookup property.node.node_id).bind
    (fun node => (node.properties.lookup property.prop_id).map f)

/-- Inbound protocol message (homie5 Homie5Message), reduced to the variant
the repository dispatches on; OtherMessage stands for every non
property-set variant. -/
inductive Homie5Message where
  | PropertySet (property : PropertyRef) (set_value : String)
  | OtherMessage
deriving DecidableEq, Repr

/-- Rendering of a Rust bool by Display (value.to_string() in the
publishers): the words true and false, independent of any format. -/
def boolRustString (b : Bool) : String :=
  if b then "true" else "false"

-- Smarthome node type tags (lib.rs).

def SMARTHOME_TYPE_SWITCH : String := "homie-homecontrol/v1/type=switch"

def SMARTHOME_TYPE_CONTACT : String := "homie-homecontrol/v1/type=contact"

def SMARTHOME_TYPE_BUTTON : String := "homie-homecontrol/v1/type=button"

def SMARTHOME_TYPE_SHUTTER : String := "homie-homecontrol/v1/type=shutter"

def SMARTHOME_TYPE_DIMMER : String := "homie-homecontrol/v1/type=dimmer"

def SMARTHOME_TYPE_THERMOSTAT : String := "homie-homecontrol/v1/type=thermostat"

def SMARTHOME_TYPE_MAINTENANCE : String := "homie-homecontrol/v1/type=maintenance"

def SMARTHOME_TYPE_WEATHER : String := "homie-homecontrol/v1/type=weather"

def SMARTHOME_TYPE_LIGHTSCENE : String := "homie-homecontrol/v1/type=lightscene"

-- Button node (button_node.rs).

/-- Button action enum (ButtonNodeActions). -/
inductive ButtonNodeActions where
  | Press
  | LongPress
  | DoublePress
  | Release
  | LongRelease
  | Continuous
deriving DecidableEq, Repr

/-- From button_node.rs lines 47-58: the static string of each action,
used by the Display impl. -/
def ButtonNodeActions.to_static_str : ButtonNodeActions → String
  | ButtonNodeActions.Press => "press"
  | ButtonNodeActions.LongPress => "long-press"
  | ButtonNodeActions.DoublePress => "double-press"
  | ButtonNodeActions.Release => "release"
  | ButtonNodeActions.LongRelease => "long-release"
  | ButtonNodeActions.Continuous => "continuous"

/-- From button_node.rs lines 30-38: FromStr for ButtonNodeActions matches
the single literal press and rejects everything else. -/
def ButtonNodeActions.from_str (s : String) : Except Homie5ProtocolError ButtonNodeActions :=
  if s = "press" then Except.ok ButtonNodeActions.Press
  else Except.error Homie5ProtocolError.InvalidPayload

-- Shutter node (shutter_node.rs).

/-- Shutter action enum (ShutterNodeActions). -/
inductive ShutterNodeActions where
  | Up
  | Down
  | Stop
deriving DecidableEq, Repr

/-- From shutter_node.rs lines 41-49: the static string of each action,
used by the Display impl. -/
def ShutterNodeActions.to_static_str : ShutterNodeActions → String
  | ShutterNodeActions.Up => "up"
  | ShutterNodeActions.Down => "down"
  | ShutterNodeActions.Stop => "stop"

/-- From shutter_node.rs lines 50-60: FromStr for ShutterNodeActions. -/
def ShutterNodeActions.from_str (s : String) : Except Homie5ProtocolError ShutterNodeActions :=
  if s = "up" then Except.ok ShutterNodeActions.Up
  else if s = "down" then Except.ok ShutterNodeActions.Down
  else if s = "stop" then Except.ok ShutterNodeActions.Stop
  else Except.error Homie5ProtocolError.InvalidPayload

/-- Shutter node configuration (ShutterNodeConfig). -/
structure ShutterNodeConfig where
  can_stop : Bool
deriving DecidableEq, Repr

/-- From shutter_node.rs lines 94-129: builds the position property
(integer 0 to 100, percent, settable, retained) and the action property
whose enum tokens are up and down, plus stop when can_stop is set. -/
def ShutterNodeBuilder.build_node (db : HomieNodeDescription)
    (config : ShutterNodeConfig) : HomieNodeDescription :=
  let actions :=
    [ShutterNodeActions.Up, ShutterNodeActions.Down] ++
      (if config.can_stop then [ShutterNodeActions.Stop] else [])
  (db.add_property "position"
    { PropertyDescriptionBuilder.new HomieDataType.integer with
        name := some "Shutter position"
        format := HomiePropertyFormat.IntegerRange (some 0) (some 100) none
        unit := some "%"
        settable := true
        retained := true }).add_property "action"
    { PropertyDescriptionBuilder.new HomieDataType.enum with
        name := some "Control Shutter"
        format := HomiePropertyFormat.Enum (actions.map ShutterNodeActions.to_static_str)
        settable := true
        retained := false }

/-- From shutter_node.rs lines 84-92: ShutterNodeBuilder::new builds the
node description with the default name and the shutter type tag. -/
def ShutterNodeBuilder.new (config : ShutterNodeConfig) : HomieNodeDescription :=
  { ShutterNodeBuilder.build_node
      { NodeDescriptionBuilder.new with name := some "Shutter control" } config with
    node_type := some SMARTHOME_TYPE_SHUTTER }

/-- Shutter domain events (ShutterNodeSetEvents). -/
inductive ShutterNodeSetEvents where
  | Position (v : Int)
  | Action (a : ShutterNodeActions)
deriving DecidableEq, Repr

/-- Shutter publisher (ShutterNodePublisher): client handle, node address
and the two property ids fixed by ShutterNodePublisher::new. -/
structure ShutterNodePublisher where
  client : Homie5DeviceProtocol
  node : NodeRef
  position_prop : String
  action_prop : String
deriving DecidableEq, Repr

/-- From shutter_node.rs lines 165-172: ShutterNodePublisher::new. -/
def ShutterNodePublisher.new (node : NodeRef) (client : Homie5DeviceProtocol) :
    ShutterNodePublisher :=
  { client := client, node := node, position_prop := "position", action_prop := "action" }

/-- From shutter_node.rs lines 201-230: ShutterNodePublisher::match_parse.
Dispatches an inbound property-set triple: position branch decodes an
integer, action branch decodes an enum token then maps it through
ShutterNodeActions::from_str; every failure yields none. -/
def ShutterNodePublisher.match_parse (self : ShutterNodePublisher)
    (property : PropertyRef) (desc : HomieDeviceDescription) (set_value : String) :
    Option ShutterNodeSetEvents :=
  if property.match_with_node self.node self.position_prop then
    (desc.with_property property (fun prop_desc =>
      match HomieValue.parse set_value prop_desc with
      | Except.ok (HomieValue.Integer value) => some (ShutterNodeSetEvents.Position value)
      | _ => none)).join
  else if property.match_with_node self.node self.action_prop then
    (desc.with_property property (fun prop_desc =>
      match HomieValue.parse set_value prop_desc with
      | Except.ok (HomieValue.Enum value) =>
          match ShutterNodeActions.from_str value with
          | Except.ok value => some (ShutterNodeSetEvents.Action value)
          | Except.error _ => none
      | _ => none)).join
  else none

-- Dimmer node (dimmer_node.rs).

/-- Dimmer action enum (DimmerNodeActions). -/
inductive DimmerNodeActions where
  | Brighter
  | Darker
deriving DecidableEq, Repr

/-- From dimmer_node.rs lines 33-42: FromStr for DimmerNodeActions. -/
def DimmerNodeActions.from_str (s : String) : Except Homie5ProtocolError DimmerNodeActions :=
  if s = "brighter" then Except.ok DimmerNodeActions.Brighter
  else if s = "darker" then Except.ok DimmerNodeActions.Darker
  else Except.error Homie5ProtocolError.InvalidPayload

/-- From dimmer_node.rs lines 166-173: the outbound string of each dimmer
action, as produced inside DimmerNodePublisher::action (the enum has no
Display impl of its own). -/
def DimmerNodeActions.action_str : DimmerNodeActions → String
  | DimmerNodeActions.Brighter => "brighter"
  | DimmerNodeActions.Darker => "darker"

/-- Dimmer domain events (DimmerNodeSetEvents). -/
inductive DimmerNodeSetEvents where
  | Brightness (v : Int)
  | Action (a : DimmerNodeActions)
deriving DecidableEq, Repr

/-- Dimmer publisher (DimmerNodePublisher). -/
structure DimmerNodePublisher where
  client : Homie5DeviceProtocol
  node : NodeRef
  brightness_prop : String
  action_prop : String
deriving DecidableEq, Repr

/-- From dimmer_node.rs lines 139-146: DimmerNodePublisher::new. -/
def DimmerNodePublisher.new (node : NodeRef) (client : Homie5DeviceProtocol) :
    DimmerNodePublisher :=
  { client := client, node := node, brightness_prop := "brightness", action_prop := "action" }

/-- From dimmer_node.rs lines 175-204: DimmerNodePublisher::match_parse.
Both branches are guarded by match_with_node against the own node address
and one of the two property ids. -/
def DimmerNodePublisher.match_parse (self : DimmerNodePublisher)
    (property : PropertyRef) (desc : HomieDeviceDescription) (set_value : String) :
    Option DimmerNodeSetEvents :=
  if property.match_with_node self.node self.brightness_prop then
    (desc.with_property property (fun prop_desc =>
      match HomieValue.parse set_value prop_desc with
      | Except.ok (HomieValue.Integer value) => some (DimmerNodeSetEvents.Brightness value)
      | _ => none)).join
  else if property.match_with_node self.node self.action_prop then
    (desc.with_property property (fun prop_desc =>
      match HomieValue.parse set_value prop_desc with
      | Except.ok (HomieValue.Enum value) =>
          match DimmerNodeActions.from_str value with
          | Except.ok value => some (DimmerNodeSetEvents.Action value)
          | Except.error _ => none
      | _ => none)).join
  else none

-- Switch node (switch_node.rs).

/-- Switch action enum (SwitchNodeActions). -/
inductive SwitchNodeActions where
  | Toggle
deriving DecidableEq, Repr

/-- From switch_node.rs lines 40-49: TryFrom of String for
SwitchNodeActions. -/
def SwitchNodeActions.try_from (s : String) : Except Homie5ProtocolError SwitchNodeActions :=
  if s = "toggle" then Except.ok SwitchNodeActions.Toggle
  else Except.error Homie5ProtocolError.InvalidPayload

/-- Switch domain events (SwitchNodeSetEvents). -/
inductive SwitchNodeSetEvents where
  | State (b : Bool)
  | Action (a : SwitchNodeActions)
deriving DecidableEq, Repr

/-- Switch node configuration (SwitchNodeConfig). -/
structure SwitchNodeConfig where
  settable : Bool
deriving DecidableEq, Repr

/-- Default SwitchNodeConfig (switch_node.rs lines 62-66): settable. -/
def SwitchNodeConfig.default : SwitchNodeConfig :=
  { settable := true }

/-- From switch_node.rs lines 83-105: builds the state property (boolean
with word pair off and on, retained) and the action property (enum with
the single token toggle, not retained). -/
def SwitchNodeBuilder.build_node (db : HomieNodeDescription)
    (config : SwitchNodeConfig) : HomieNodeDescription :=
  (db.add_property "state"
    { PropertyDescriptionBuilder.new HomieDataType.boolean with
        name := some "On/Off state"
        format := HomiePropertyFormat.Boolean { false_val := "off", true_val := "on" }
        settable := config.settable
        retained := true }).add_property "action"
    { PropertyDescriptionBuilder.new HomieDataType.enum with
        name := some "Change state"
        format := HomiePropertyFormat.Enum ["toggle"]
        settable := config.settable
        retained := false }

/-- From switch_node.rs lines 73-81: SwitchNodeBuilder::new builds the node
description with the default name and the switch type tag. -/
def SwitchNodeBuilder.new (config : SwitchNodeConfig) : HomieNodeDescription :=
  { SwitchNodeBuilder.build_node
      { NodeDescriptionBuilder.new with name := some "On/Off switch" } config with
    node_type := some SMARTHOME_TYPE_SWITCH }

/-- Switch publisher (SwitchNodePublisher). -/
structure SwitchNodePublisher where
  client : Homie5DeviceProtocol
  node : NodeRef
  state_prop : String
  action_prop : String
deriving DecidableEq, Repr

/-- From switch_node.rs lines 144-151: SwitchNodePublisher::new. -/
def SwitchNodePublisher.new (node : NodeRef) (client : Homie5DeviceProtocol) :
    SwitchNodePublisher :=
  { client := client, node := node, state_prop := "state", action_prop := "action" }

/-- From switch_node.rs lines 153-160: SwitchNodePublisher::state publishes
the Rust bool rendering of the value, retained. -/
def SwitchNodePublisher.state (self : SwitchNodePublisher) (value : Bool) : Publish :=
  self.client.publish_value self.node.node_id self.state_prop (boolRustString value) true

/-- From switch_node.rs lines 162-169: SwitchNodePublisher::state_target. -/
def SwitchNodePublisher.state_target (self : SwitchNodePublisher) (value : Bool) : Publish :=
  self.client.publish_target self.node.node_id self.state_prop (boolRustString value) true

/-- From switch_node.rs lines 180-213: SwitchNodePublisher::match_parse.
The state branch is guarded by match_with_device against the client device
address plus the own node id; the action branch by match_with_node. -/
def SwitchNodePublisher.match_parse (self : SwitchNodePublisher)
    (property : PropertyRef) (desc : HomieDeviceDescription) (set_value : String) :
    Option SwitchNodeSetEvents :=
  if property.match_with_device self.client.device_ref self.node.node_id self.state_prop then
    (desc.with_property property (fun prop_desc =>
      match HomieValue.parse set_value prop_desc with
      | Except.ok (HomieValue.Bool value) => some (SwitchNodeSetEvents.State value)
      | _ => none)).join
  else if property.match_with_node self.node self.action_prop then
    (desc.with_property property (fun prop_desc =>
      match HomieValue.parse set_value prop_desc with
      | Except.ok (HomieValue.Enum value) =>
          match SwitchNodeActions.try_from value with
          | Except.ok value => some (SwitchNodeSetEvents.Action value)
          | Except.error _ => none
      | _ => none)).join
  else none

/-- From switch_node.rs lines 214-226: SwitchNodePublisher::match_parse_event
forwards property-set messages to match_parse, everything else is none. -/
def SwitchNodePublisher.match_parse_event (self : SwitchNodePublisher)
    (desc : HomieDeviceDescription) (event : Homie5Message) : Option SwitchNodeSetEvents :=
  match event with
  | Homie5Message.PropertySet property set_value => self.match_parse property desc set_value
  | Homie5Message.OtherMessage => none

/-- Call-shaped wrapper around SwitchNodePublisher::match_parse mirroring
the Rust signature, which takes the publisher and the description by shared
reference: the call returns its result together with the publisher and
description the caller retains. -/
def SwitchNodePublisher.match_parse_call (self : SwitchNodePublisher)
    (property : PropertyRef) (desc : HomieDeviceDescription) (set_value : String) :
    Option SwitchNodeSetEvents × SwitchNodePublisher × HomieDeviceDescription :=
  (self.match_parse property desc set_value, self, desc)

-- Contact node (contact_node.rs).

/-- Contact publisher (ContactNodePublisher). -/
structure ContactNodePublisher where
  client : Homie5DeviceProtocol
  node : NodeRef
  state_prop : String
deriving DecidableEq, Repr

/-- From contact_node.rs lines 89-96: ContactNodePublisher::new. -/
def ContactNodePublisher.new (node : NodeRef) (client : Homie5DeviceProtocol) :
    ContactNodePublisher :=
  { client := client, node := node, state_prop := "state" }

/-- From contact_node.rs lines 98-105: ContactNodePublisher::state
publishes the Rust bool rendering of the value, retained. -/
def ContactNodePublisher.state (self : ContactNodePublisher) (value : Bool) : Publish :=
  self.client.publish_value self.node.node_id self.state_prop (boolRustString value) true

/-- From contact_node.rs lines 39-52: the contact node state property with
word pair closed and open. -/
def ContactNodeBuilder.build_node (db : HomieNodeDescription) : HomieNodeDescription :=
  db.add_property "state"
    { PropertyDescriptionBuilder.new HomieDataType.boolean with
        name := some "Open/Close state"
        format := HomiePropertyFormat.Boolean { false_val := "closed", true_val := "open" }
        settable := false
        retained := true }

-- Thermostat node (thermostat_node.rs).

/-- Thermostat mode enum (ThermostatNodeModes). -/
inductive ThermostatNodeModes where
  | Off
  | Auto
  | Manual
  | Party
  | Boost
  | Cool
  | Heat
  | EmergencyHeating
  | Precooling
  | FanOnly
  | Dry
  | Sleep
deriving DecidableEq, Repr

/-- From thermostat_node.rs lines 49-66: ThermostatNodeModes::as_str. -/
def ThermostatNodeModes.as_str : ThermostatNodeModes → String
  | ThermostatNodeModes.Off => "off"
  | ThermostatNodeModes.Auto => "auto"
  | ThermostatNodeModes.Manual => "manual"
  | ThermostatNodeModes.Party => "party"
  | ThermostatNodeModes.Boost => "boost"
  | ThermostatNodeModes.Cool => "cool"
  | ThermostatNodeModes.Heat => "heat"
  | ThermostatNodeModes.EmergencyHeating => "emergency-heating"
  | ThermostatNodeModes.Precooling => "precooling"
  | ThermostatNodeModes.FanOnly => "fan-only"
  | ThermostatNodeModes.Dry => "dry"
  | ThermostatNodeModes.Sleep => "sleep"

/-- From thermostat_node.rs lines 88-108: TryFrom of a string slice for
ThermostatNodeModes, matching the twelve mode words. -/
def ThermostatNodeModes.try_from_str (value : String) :
    Except Homie5ProtocolError ThermostatNodeModes :=
  if value = "off" then Except.ok ThermostatNodeModes.Off
  else if value = "auto" then Except.ok ThermostatNodeModes.Auto
  else if value = "manual" then Except.ok ThermostatNodeModes.Manual
  else if value = "party" then Except.ok ThermostatNodeModes.Party
  else if value = "boost" then Except.ok ThermostatNodeModes.Boost
  else if value = "cool" then Except.ok ThermostatNodeModes.Cool
  else if value = "heat" then Except.ok ThermostatNodeModes.Heat
  else if value = "emergency-heating" then Except.ok ThermostatNodeModes.EmergencyHeating
  else if value = "precooling" then Except.ok ThermostatNodeModes.Precooling
  else if value = "fan-only" then Except.ok ThermostatNodeModes.FanOnly
  else if value = "dry" then Except.ok ThermostatNodeModes.Dry
  else if value = "sleep" then Except.ok ThermostatNodeModes.Sleep
  else Except.error Homie5ProtocolError.InvalidPayload

/-- From thermostat_node.rs lines 80-86: the TryFrom of an owned String for
ThermostatNodeModes is the body value.try_into(), which Rust method
resolution binds back to the very impl being defined (the blanket TryInto
impl for String), so every call recurses into itself and never returns.
Modelled with explicit fuel counting the call depth: none means no result
was produced within the given depth. -/
def ThermostatNodeModes.try_from_string_fuel :
    Nat → String → Option (Except Homie5ProtocolError ThermostatNodeModes)
  | 0, _ => none
  | n + 1, value => ThermostatNodeModes.try_from_string_fuel n value

/-- Thermostat node configuration (ThermostatNodeConfig). -/
structure ThermostatNodeConfig where
  unit : String
  valve : Bool
  windowopen : Bool
  boost_state : Bool
  mode : Bool
  modes : List ThermostatNodeModes
  temp_range : FloatRange
deriving DecidableEq, Repr

/-- Default ThermostatNodeConfig (thermostat_node.rs lines 127-143). -/
def ThermostatNodeConfig.default : ThermostatNodeConfig :=
  { unit := "°C"
    valve := true
    windowopen := true
    boost_state := true
    mode := true
    modes := [ThermostatNodeModes.Auto, ThermostatNodeModes.Manual]
    temp_range := { min := some 5, max := some 32, step := some (1 / 2) } }

/-- From thermostat_node.rs lines 160-229: builds the set-temperature
property and, gated on the config, the valve, windowopen, boost-state and
mode properties; the mode property is declared settable and not
retained, its enum tokens the configured mode words. -/
def ThermostatNodeBuilder.build_node (db : HomieNodeDescription)
    (config : ThermostatNodeConfig) : HomieNodeDescription :=
  ((((db.add_property "set-temperature"
    { PropertyDescriptionBuilder.new HomieDataType.float with
        name := some "Set target temperature"
        format := HomiePropertyFormat.FloatRange config.temp_range.min
          config.temp_range.max config.temp_range.step
        unit := some config.unit
        settable := true
        retained := true }).add_property_cond "valve" config.valve (fun _ =>
    { PropertyDescriptionBuilder.new HomieDataType.integer with
        name := some "Valve opening Level"
        format := HomiePropertyFormat.IntegerRange (some 0) (some 100) none
        unit := some "%"
        settable := false
        retained := true })).add_property_cond "windowopen" config.windowopen (fun _ =>
    { PropertyDescriptionBuilder.new HomieDataType.boolean with
        name := some "Window open detected"
        format := HomiePropertyFormat.Boolean { false_val := "closed", true_val := "open" }
        settable := false
        retained := true })).add_property_cond "boost-state" config.boost_state (fun _ =>
    { PropertyDescriptionBuilder.new HomieDataType.integer with
        name := some "Seconds remaining for boost"
        format := HomiePropertyFormat.IntegerRange (some 0) none none
        unit := some "min"
        settable := false
        retained := true })).add_property_cond "mode" config.mode (fun _ =>
    { PropertyDescriptionBuilder.new HomieDataType.enum with
        name := some "Change Mode"
        format := HomiePropertyFormat.Enum (config.modes.map ThermostatNodeModes.as_str)
        settable := true
        retained := false })

/-- From thermostat_node.rs lines 150-158: ThermostatNodeBuilder::new. -/
def ThermostatNodeBuilder.new (config : ThermostatNodeConfig) : HomieNodeDescription :=
  { ThermostatNodeBuilder.build_node
      { NodeDescriptionBuilder.new with name := some "Thermostat" } config with
    node_type := some SMARTHOME_TYPE_THERMOSTAT }

/-- Thermostat publisher (ThermostatNodePublisher). -/
structure ThermostatNodePublisher where
  client : Homie5DeviceProtocol
  node : NodeRef
  set_temperature_prop : String
  boost_prop : String
  mode_prop : String
  valve_prop : String
  windowopen_prop : String
deriving DecidableEq, Repr

/-- From thermostat_node.rs lines 268-278: ThermostatNodePublisher::new. -/
def ThermostatNodePublisher.new (node : NodeRef) (client : Homie5DeviceProtocol) :
    ThermostatNodePublisher :=
  { client := client
    node := node
    set_temperature_prop := "set-temperature"
    boost_prop := "boost-state"
    mode_prop := "mode"
    valve_prop := "valve"
    windowopen_prop := "windowopen" }

/-- From thermostat_node.rs lines 298-301: ThermostatNodePublisher::mode
publishes the mode word with the retained flag hard-coded to true. -/
def ThermostatNodePublisher.mode (self : ThermostatNodePublisher)
    (mode : ThermostatNodeModes) : Publish :=
  self.client.publish_value self.node.node_id self.mode_prop mode.as_str true

/-- From thermostat_node.rs lines 303-306: ThermostatNodePublisher::mode_target
publishes the mode word to the target slot with the retained flag
hard-coded to true. -/
def ThermostatNodePublisher.mode_target (self : ThermostatNodePublisher)
    (mode : ThermostatNodeModes) : Publish :=
  self.client.publish_target self.node.node_id self.mode_prop mode.as_str true

-- Maintenance node (maintenance_node.rs).

/-- Maintenance node configuration (MaintenanceNodeConfig). -/
structure MaintenanceNodeConfig where
  low_battery : Bool
  battery_level : Bool
  reachable : Bool
  last_update : Bool
deriving DecidableEq, Repr

/-- Default MaintenanceNodeConfig (maintenance_node.rs lines 37-46):
battery_level is disabled by default. -/
def MaintenanceNodeConfig.default : MaintenanceNodeConfig :=
  { low_battery := true, battery_level := false, reachable := true, last_update := true }

/-- From maintenance_node.rs lines 67-115: all four maintenance properties
are config-gated via add_property_cond. -/
def MaintenanceNodeBuilder.build_node (db : HomieNodeDescription)
    (config : MaintenanceNodeConfig) : HomieNodeDescription :=
  (((db.add_property_cond "low-battery" config.low_battery (fun _ =>
    { PropertyDescriptionBuilder.new HomieDataType.boolean with
        name := some "Low battery indicator"
        settable := false
        retained := true })).add_property_cond "battery-level" config.battery_level (fun _ =>
    { PropertyDescriptionBuilder.new HomieDataType.integer with
        name := some "Battery level"
        settable := false
        retained := true })).add_property_cond "last-update" config.last_update (fun _ =>
    { PropertyDescriptionBuilder.new HomieDataType.datetime with
        name := some "Last update"
        settable := false
        retained := true })).add_property_cond "reachable" config.reachable (fun _ =>
    { PropertyDescriptionBuilder.new HomieDataType.boolean with
        name := some "Reachable"
        settable := false
        retained := true })

/-- Modelled from the spec: the UTC timestamp type of the external chrono
library, reduced to its RFC 3339 rendering with millisecond precision as
produced by to_rfc3339_opts in MaintenanceNodePublisher::last_update. -/
structure DateTimeUtc where
  rfc3339_millis : String
deriving DecidableEq, Repr

/-- Maintenance publisher (MaintenanceNodePublisher): unlike the other
publishers it retains its build config to gate the publish helpers. -/
structure MaintenanceNodePublisher where
  client : Homie5DeviceProtocol
  config : MaintenanceNodeConfig
  node : NodeRef
  low_battery_prop : String
  battery_level_prop : String
  last_update_prop : String
  reachable_prop : String
deriving DecidableEq, Repr

/-- From maintenance_node.rs lines 158-168: MaintenanceNodePublisher::new. -/
def MaintenanceNodePublisher.new (node : NodeRef) (client : Homie5DeviceProtocol)
    (config : MaintenanceNodeConfig) : MaintenanceNodePublisher :=
  { client := client
    config := config
    node := node
    low_battery_prop := "low-battery"
    battery_level_prop := "battery-level"
    last_update_prop := "last-update"
    reachable_prop := "reachable" }

/-- From maintenance_node.rs lines 170-180: low_battery returns none when
the config gate is off, otherwise a retained message. -/
def MaintenanceNodePublisher.low_battery (self : MaintenanceNodePublisher)
    (value : Bool) : Option Publish :=
  if !self.config.low_battery then none
  else some (self.client.publish_value self.node.node_id self.low_battery_prop
    (boolRustString value) true)

/-- From maintenance_node.rs lines 182-192: battery_level returns none when
the config gate is off, otherwise a retained message. -/
def MaintenanceNodePublisher.battery_level (self : MaintenanceNodePublisher)
    (value : Int) : Option Publish :=
  if !self.config.battery_level then none
  else some (self.client.publish_value self.node.node_id self.battery_level_prop
    (toString value) true)

/-- From maintenance_node.rs lines 193-203: last_update returns none when
the config gate is off, otherwise a retained message with the RFC 3339
rendering of the timestamp. -/
def MaintenanceNodePublisher.last_update (self : MaintenanceNodePublisher)
    (value : DateTimeUtc) : Option Publish :=
  if !self.config.last_update then none
  else some (self.client.publish_value self.node.node_id self.last_update_prop
    value.rfc3339_millis true)

/-- From maintenance_node.rs lines 204-214: reachable returns none when the
config gate is off, otherwise a retained message. -/
def MaintenanceNodePublisher.reachable (self : MaintenanceNodePublisher)
    (value : Bool) : Option Publish :=
  if !self.config.reachable then none
  else some (self.client.publish_value self.node.node_id self.reachable_prop
    (boolRustString value) true)

-- Weather node (weather_node.rs).

/-- Weather node configuration (WeatherNodeConfig). -/
structure WeatherNodeConfig where
  temperature : Bool
  humidity : Bool
  pressure : Bool
  temp_unit : String
deriving DecidableEq, Repr

/-- From weather_node.rs lines 60-100: the three weather properties are
config-gated via add_property_cond. -/
def WeatherNodeBuilder.build_node (db : HomieNodeDescription)
    (config : WeatherNodeConfig) : HomieNodeDescription :=
  ((db.add_property_cond "temperature" config.temperature (fun _ =>
    { PropertyDescriptionBuilder.new HomieDataType.float with
        name := some "Current temperature"
        retained := true
        settable := false
        unit := some config.temp_unit })).add_property_cond "humidity" config.humidity (fun _ =>
    { PropertyDescriptionBuilder.new HomieDataType.integer with
        name := some "Current humidity"
        retained := true
        settable := false
        unit := some "%" })).add_property_cond "pressure" config.pressure (fun _ =>
    { PropertyDescriptionBuilder.new HomieDataType.float with
        name := some "Current pressure"
        retained := true
        settable := false
        unit := some "kPa" })

-- Light scene node (light_scene_node.rs).

/-- Light scene action (LightSceneNodeActions). -/
inductive LightSceneNodeActions where
  | Recall (scene : String)
deriving DecidableEq, Repr

/-- Light scene node configuration (LightSceneNodeConfig). -/
structure LightSceneNodeConfig where
  scenes : List String
  settable : Bool
deriving DecidableEq, Repr

/-- Light scene publisher (LightSceneNodePublisher): retains its build
config to validate recalled scenes. -/
structure LightSceneNodePublisher where
  client : Homie5DeviceProtocol
  node : NodeRef
  recall_prop : String
  config : LightSceneNodeConfig
deriving DecidableEq, Repr

/-- From light_scene_node.rs lines 99-106: LightSceneNodePublisher::new. -/
def LightSceneNodePublisher.new (node : NodeRef) (config : LightSceneNodeConfig)
    (client : Homie5DeviceProtocol) : LightSceneNodePublisher :=
  { client := client, node := node, recall_prop := "recall", config := config }

/-- From light_scene_node.rs lines 108-120: recall returns a non-retained
message when the scene is one of the configured scenes, otherwise none. -/
def LightSceneNodePublisher.recall (self : LightSceneNodePublisher)
    (action : LightSceneNodeActions) : Option Publish :=
  match action with
  | LightSceneNodeActions.Recall scene =>
      if self.config.scenes.contains scene then
        some (self.client.publish_value self.node.node_id self.recall_prop scene false)
      else none

/-- From light_scene_node.rs lines 122-141: LightSceneNodePublisher::match_parse.
The println calls in the source write to stdout only and do not affect the
returned value. -/
def LightSceneNodePublisher.match_parse (self : LightSceneNodePublisher)
    (property : PropertyRef) (desc : HomieDeviceDescription) (set_value : String) :
    Option LightSceneNodeActions :=
  if property.match_with_node self.node self.recall_prop then
    (desc.with_property property (fun prop_desc =>
      match HomieValue.parse set_value prop_desc with
      | Except.ok (HomieValue.Enum value) => some (LightSceneNodeActions.Recall value)
      | _ => none)).join
  else none

/-- Call-shaped wrapper around LightSceneNodePublisher::match_parse
mirroring the Rust shared-reference signature, analogous to the switch
wrapper. -/
def LightSceneNodePublisher.match_parse_call (self : LightSceneNodePublisher)
    (property : PropertyRef) (desc : HomieDeviceDescription) (set_value : String) :
    Option LightSceneNodeActions × LightSceneNodePublisher × HomieDeviceDescription :=
  (self.match_parse property desc set_value, self, desc)

-- Concrete fixtures used by the closed theorems below.

/-- Test device client: homie domain homie, device id device-1. -/
def testClient : Homie5DeviceProtocol :=
  { homie_domain := "homie", device_id := "device-1" }

/-- Node address of the test switch node, as build_with_publisher derives it
from the client identity plus the node id. -/
def testSwitchNodeRef : NodeRef :=
  { homie_domain := "homie", device_id := "device-1", node_id := "switch" }

/-- Switch publisher over the test identities. -/
def testSwitchPublisher : SwitchNodePublisher :=
  SwitchNodePublisher.new testSwitchNodeRef testClient

/-- Device description advertising the default-config switch node. -/
def testSwitchDeviceDesc : HomieDeviceDescription :=
  { nodes := [("switch", SwitchNodeBuilder.new SwitchNodeConfig.default)] }

/-- Node address of the test shutter node. -/
def testShutterNodeRef : NodeRef :=
  { homie_domain := "homie", device_id := "device-1", node_id := "shutter" }

/-- Shutter publisher over the test identities. -/
def testShutterPublisher : ShutterNodePublisher :=
  ShutterNodePublisher.new testShutterNodeRef testClient

/-- Device description advertising a shutter node built with can_stop off. -/
def testShutterDeviceDescNoStop : HomieDeviceDescription :=
  { nodes := [("shutter", ShutterNodeBuilder.new { can_stop := false })] }

/-- Maintenance publisher built from the default config, whose
battery_level gate is off. -/
def testMaintenancePublisher : MaintenanceNodePublisher :=
  MaintenanceNodePublisher.new
    { homie_domain := "homie", device_id := "device-1", node_id := "maintenance" }
    testClient MaintenanceNodeConfig.default

/-- Property reference addressing a node id the test switch publisher does
not own. -/
def foreignPropertyRef : PropertyRef :=
  { node := { homie_domain := "homie", device_id := "device-1", node_id := "other-node" }
    prop_id := "state" }

-- Theorems.

/-- C1 counterexample: the claimed round-trip fails on ButtonNodeActions:
from_str of the Display string of LongPress is not Ok(LongPress), because
ButtonNodeActions::from_str matches only the literal press. -/
theorem button_longpress_roundtrip_fails :
    ButtonNodeActions.from_str (ButtonNodeActions.to_static_str ButtonNodeActions.LongPress) ≠
      Except.ok ButtonNodeActions.LongPress := by
  decide

/-- C1 amended: decoding the encoded string round-trips for every
ShutterNodeActions variant, for every DimmerNodeActions variant (whose
outbound encoding is the string produced inside DimmerNodePublisher::action),
and for ButtonNodeActions::Press; for the five other ButtonNodeActions
variants from_str rejects the Display string with InvalidPayload. -/
theorem action_enum_roundtrip_amended :
    (∀ a : ShutterNodeActions,
      ShutterNodeActions.from_str (ShutterNodeActions.to_static_str a) = Except.ok a) ∧
    (∀ a : DimmerNodeActions,
      DimmerNodeActions.from_str (DimmerNodeActions.action_str a) = Except.ok a) ∧
    ButtonNodeActions.from_str (ButtonNodeActions.to_static_str ButtonNodeActions.Press) =
      Except.ok ButtonNodeActions.Press ∧
    (∀ a : ButtonNodeActions, a ≠ ButtonNodeActions.Press →
      ButtonNodeActions.from_str (ButtonNodeActions.to_static_str a) =
        Except.error Homie5ProtocolError.InvalidPayload) := by
  refine ⟨fun a => ?_, fun a => ?_, by decide, fun a h => ?_⟩
  · cases a <;> decide
  · cases a <;> decide
  · cases a
    · exact absurd rfl h
    all_goals decide

/-- C1 witness: the amended round-trip evaluated at Up, and the rejection
branch evaluated at LongPress. -/
theorem action_enum_roundtrip_amended_witness :
    ShutterNodeActions.from_str (ShutterNodeActions.to_static_str ShutterNodeActions.Up) =
      Except.ok ShutterNodeActions.Up ∧
    ButtonNodeActions.LongPress ≠ ButtonNodeActions.Press ∧
    ButtonNodeActions.from_str (ButtonNodeActions.to_static_str ButtonNodeActions.LongPress) =
      Except.error Homie5ProtocolError.InvalidPayload :=
  ⟨action_enum_roundtrip_amended.1 ShutterNodeActions.Up, by decide,
    action_enum_roundtrip_amended.2.2.2 ButtonNodeActions.LongPress (by decide)⟩

/-- C2 counterexample: SwitchNodePublisher::state(true) does not produce
the configured word on; the payload is the Rust bool rendering true. -/
theorem switch_state_payload_not_configured_word :
    (testSwitchPublisher.state true).payload ≠ "on" ∧
    (testSwitchPublisher.state true).payload = "true" := by
  constructor <;> decide

/-- C2 amended: the boolean state publishers emit the Rust bool rendering
true or false as payload, for every publisher and value; the configured
word pairs (off and on for the switch, closed and open for the contact)
appear only in the built schema format, not in outbound payloads. -/
theorem boolean_state_payload_rust_words :
    (∀ (p : SwitchNodePublisher) (b : Bool), (p.state b).payload = boolRustString b) ∧
    (∀ (p : SwitchNodePublisher) (b : Bool), (p.state_target b).payload = boolRustString b) ∧
    (∀ (p : ContactNodePublisher) (b : Bool), (p.state b).payload = boolRustString b) ∧
    ((SwitchNodeBuilder.new SwitchNodeConfig.default).properties.lookup "state").map
        (fun d => d.format) =
      some (HomiePropertyFormat.Boolean { false_val := "off", true_val := "on" }) ∧
    ((ContactNodeBuilder.build_node NodeDescriptionBuilder.new).properties.lookup "state").map
        (fun d => d.format) =
      some (HomiePropertyFormat.Boolean { false_val := "closed", true_val := "open" }) :=
  ⟨fun _ _ => rfl, fun _ _ => rfl, fun _ _ => rfl, by decide, by decide⟩

/-- C3: the TryFrom of an owned String for ThermostatNodeModes never
produces a result at any call depth (its body resolves back to itself and
recurses forever), while the TryFrom of a string slice it was meant to
delegate to is total: every input yields Ok of some mode or
Err(InvalidPayload). -/
theorem thermostat_mode_try_from_behavior :
    (∀ (fuel : Nat) (s : String), ThermostatNodeModes.try_from_string_fuel fuel s = none) ∧
    (∀ s : String, (∃ m, ThermostatNodeModes.try_from_str s = Except.ok m) ∨
      ThermostatNodeModes.try_from_str s = Except.error Homie5ProtocolError.InvalidPayload) := by
  constructor
  · intro fuel s
    induction fuel with
    | zero => rfl
    | succ n ih => exact ih
  · intro s
    unfold ThermostatNodeModes.try_from_str
    by_cases h1 : s = "off"
    · rw [if_pos h1]; exact Or.inl ⟨_, rfl⟩
    rw [if_neg h1]
    by_cases h2 : s = "auto"
    · rw [if_pos h2]; exact Or.inl ⟨_, rfl⟩
    rw [if_neg h2]
    by_cases h3 : s = "manual"
    · rw [if_pos h3]; exact Or.inl ⟨_, rfl⟩
    rw [if_neg h3]
    by_cases h4 : s = "party"
    · rw [if_pos h4]; exact Or.inl ⟨_, rfl⟩
    rw [if_neg h4]
    by_cases h5 : s = "boost"
    · rw [if_pos h5]; exact Or.inl ⟨_, rfl⟩
    rw [if_neg h5]
    by_cases h6 : s = "cool"
    · rw [if_pos h6]; exact Or.inl ⟨_, rfl⟩
    rw [if_neg h6]
    by_cases h7 : s = "heat"
    · rw [if_pos h7]; exact Or.inl ⟨_, rfl⟩
    rw [if_neg h7]
    by_cases h8 : s = "emergency-heating"
    · rw [if_pos h8]; exact Or.inl ⟨_, rfl⟩
    rw [if_neg h8]
    by_cases h9 : s = "precooling"
    · rw [if_pos h9]; exact Or.inl ⟨_, rfl⟩
    rw [if_neg h9]
    by_cases h10 : s = "fan-only"
    · rw [if_pos h10]; exact Or.inl ⟨_, rfl⟩
    rw [if_neg h10]
    by_cases h11 : s = "dry"
    · rw [if_pos h11]; exact Or.inl ⟨_, rfl⟩
    rw [if_neg h11]
    by_cases h12 : s = "sleep"
    · rw [if_pos h12]; exact Or.inl ⟨_, rfl⟩
    rw [if_neg h12]
    exact Or.inr rfl

/-- C4: the retained flag of the mode publishers contradicts the built
schema: the thermostat schema declares the mode property with retained
false, yet ThermostatNodePublisher::mode and mode_target emit messages
with the retained flag true, for every publisher and mode. The switch
state path is consistent: the schema declares state retained and
SwitchNodePublisher::state emits retained messages. -/
theorem thermostat_mode_retained_mismatch :
    ((ThermostatNodeBuilder.new ThermostatNodeConfig.default).properties.lookup "mode").map
        (fun d => d.retained) = some false ∧
    (∀ (p : ThermostatNodePublisher) (m : ThermostatNodeModes),
      (p.mode m).retain = true ∧ (p.mode_target m).retain = true) ∧
    (∀ (p : SwitchNodePublisher) (b : Bool), (p.state b).retain = true) ∧
    ((SwitchNodeBuilder.new SwitchNodeConfig.default).properties.lookup "state").map
        (fun d => d.retained) = some true :=
  ⟨by decide, fun _ _ => ⟨rfl, rfl⟩, fun _ _ => rfl, by decide⟩

/-- C5 counterexample: under the default config, whose battery_level gate
is off, MaintenanceNodePublisher::battery_level yields no outbound
message. -/
theorem maintenance_battery_level_disabled_none :
    testMaintenancePublisher.battery_level 50 = none := by
  decide

/-- C5 amended: each maintenance publish helper yields a message exactly
when its config gate is enabled, and LightSceneNodePublisher::recall
yields a message exactly when the recalled scene is one of the configured
scenes; whenever a message is produced, encoding has succeeded. -/
theorem optional_publish_helpers_some_iff :
    (∀ (p : MaintenanceNodePublisher) (v : Bool),
      (p.low_battery v).isSome = p.config.low_battery) ∧
    (∀ (p : MaintenanceNodePublisher) (v : Int),
      (p.battery_level v).isSome = p.config.battery_level) ∧
    (∀ (p : MaintenanceNodePublisher) (v : DateTimeUtc),
      (p.last_update v).isSome = p.config.last_update) ∧
    (∀ (p : MaintenanceNodePublisher) (v : Bool),
      (p.reachable v).isSome = p.config.reachable) ∧
    (∀ (p : LightSceneNodePublisher) (scene : String),
      (p.recall (LightSceneNodeActions.Recall scene)).isSome =
        p.config.scenes.contains scene) := by
  refine ⟨fun p v => ?_, fun p v => ?_, fun p v => ?_, fun p v => ?_, fun p scene => ?_⟩
  · cases h : p.config.low_battery <;> simp [MaintenanceNodePublisher.low_battery, h]
  · cases h : p.config.battery_level <;> simp [MaintenanceNodePublisher.battery_level, h]
  · cases h : p.config.last_update <;> simp [MaintenanceNodePublisher.last_update, h]
  · cases h : p.config.reachable <;> simp [MaintenanceNodePublisher.reachable, h]
  · cases h : p.config.scenes.contains scene <;>
      simp [LightSceneNodePublisher.recall, h] <;> simpa using h

/-- C6: on a switch node built with the boolean word pair off and on, an
incoming property-set for its state property with raw payload on decodes
to the boolean true and dispatches to Some(State(true)). -/
theorem switch_state_on_dispatch :
    testSwitchPublisher.match_parse
      { node := testSwitchNodeRef, prop_id := "state" } testSwitchDeviceDesc "on" =
      some (SwitchNodeSetEvents.State true) := by
  decide

/-- C7: a shutter node built with can_stop false has the enum token list
up, down (in that order) on its action property, and an incoming set
message with payload stop for that property dispatches to none; with
can_stop true the token list is up, down, stop. -/
theorem shutter_action_tokens_and_stop_rejected :
    ((ShutterNodeBuilder.new { can_stop := false }).properties.lookup "action").map
        (fun d => d.format) = some (HomiePropertyFormat.Enum ["up", "down"]) ∧
    ((ShutterNodeBuilder.new { can_stop := true }).properties.lookup "action").map
        (fun d => d.format) = some (HomiePropertyFormat.Enum ["up", "down", "stop"]) ∧
    testShutterPublisher.match_parse
      { node := testShutterNodeRef, prop_id := "action" } testShutterDeviceDescNoStop "stop" =
      none :=
  ⟨by decide, by decide, by decide⟩

/-- C8: for every config-gated optional property, the built node schema
contains the property id exactly when its gate is true, and then exactly
once: each of the four maintenance properties and the three weather
properties occurs in the built property list once when its gate is
enabled and not at all when disabled, for every config. -/
theorem conditional_schema_inclusion :
    (∀ config : MaintenanceNodeConfig,
      ((MaintenanceNodeBuilder.build_node NodeDescriptionBuilder.new config).properties.map
          Prod.fst).count "low-battery" = (if config.low_battery then 1 else 0) ∧
      ((MaintenanceNodeBuilder.build_node NodeDescriptionBuilder.new config).properties.map
          Prod.fst).count "battery-level" = (if config.battery_level then 1 else 0) ∧
      ((MaintenanceNodeBuilder.build_node NodeDescriptionBuilder.new config).properties.map
          Prod.fst).count "last-update" = (if config.last_update then 1 else 0) ∧
      ((MaintenanceNodeBuilder.build_node NodeDescriptionBuilder.new config).properties.map
          Prod.fst).count "reachable" = (if config.reachable then 1 else 0)) ∧
    (∀ config : WeatherNodeConfig,
      ((WeatherNodeBuilder.build_node NodeDescriptionBuilder.new config).properties.map
          Prod.fst).count "temperature" = (if config.temperature then 1 else 0) ∧
      ((WeatherNodeBuilder.build_node NodeDescriptionBuilder.new config).properties.map
          Prod.fst).count "humidity" = (if config.humidity then 1 else 0) ∧
      ((WeatherNodeBuilder.build_node NodeDescriptionBuilder.new config).properties.map
          Prod.fst).count "pressure" = (if config.pressure then 1 else 0)) := by
  constructor
  · intro config
    rcases config with ⟨lb, bl, rc, lu⟩
    cases lb <;> cases bl <;> cases rc <;> cases lu <;> exact ⟨by decide, by decide, by decide, by decide⟩
  · intro config
    rcases config with ⟨t, h, pr, u⟩
    cases t <;> cases h <;> cases pr <;>
      refine ⟨?_, ?_, ?_⟩ <;>
      simp [WeatherNodeBuilder.build_node, HomieNodeDescription.add_property_cond,
        HomieNodeDescription.add_property, NodeDescriptionBuilder.new, List.count_cons,
        List.count_nil]

/-- C9: for a switch or dimmer publisher whose node address was derived
from the client identity (as build_with_publisher constructs it), an
incoming property-set whose target does not match the node address
together with one of the owned property ids dispatches to none, for every
payload and device description. -/
theorem dispatch_filters_foreign_property_refs :
    ∀ (client : Homie5DeviceProtocol) (node : NodeRef) (property : PropertyRef)
      (desc : HomieDeviceDescription) (v : String),
      node.homie_domain = client.homie_domain →
      node.device_id = client.device_id →
      (¬(property.node = node ∧ (property.prop_id = "state" ∨ property.prop_id = "action")) →
        (SwitchNodePublisher.new node client).match_parse property desc v = none) ∧
      (¬(property.node = node ∧
          (property.prop_id = "brightness" ∨ property.prop_id = "action")) →
        (DimmerNodePublisher.new node client).match_parse property desc v = none) := by
  intro client node property desc v hdom hdev
  constructor
  · intro hmis
    have hg1 : ¬(property.match_with_device client.device_ref node.node_id "state" = true) := by
      intro hm
      simp only [PropertyRef.match_with_device, Homie5DeviceProtocol.device_ref,
        Bool.and_eq_true, decide_eq_true_eq] at hm
      obtain ⟨⟨⟨h1, h2⟩, h3⟩, h4⟩ := hm
      exact hmis ⟨NodeRef.ext (h1.trans hdom.symm) (h2.trans hdev.symm) h3, Or.inl h4⟩
    have hg2 : ¬(property.match_with_node node "action" = true) := by
      intro hm
      simp only [PropertyRef.match_with_node, Bool.and_eq_true, decide_eq_true_eq] at hm
      exact hmis ⟨hm.1, Or.inr hm.2⟩
    simp [SwitchNodePublisher.match_parse, SwitchNodePublisher.new, hg1, hg2]
  · intro hmis
    have hg1 : ¬(property.match_with_node node "brightness" = true) := by
      intro hm
      simp only [PropertyRef.match_with_node, Bool.and_eq_true, decide_eq_true_eq] at hm
      exact hmis ⟨hm.1, Or.inl hm.2⟩
    have hg2 : ¬(property.match_with_node node "action" = true) := by
      intro hm
      simp only [PropertyRef.match_with_node, Bool.and_eq_true, decide_eq_true_eq] at hm
      exact hmis ⟨hm.1, Or.inr hm.2⟩
    simp [DimmerNodePublisher.match_parse, DimmerNodePublisher.new, hg1, hg2]

/-- C9 witness: the filtering theorem applied to the test switch identity
and a property reference addressing a different node id. -/
theorem dispatch_filters_foreign_property_refs_witness :
    testSwitchNodeRef.homie_domain = testClient.homie_domain ∧
    testSwitchNodeRef.device_id = testClient.device_id ∧
    ¬(foreignPropertyRef.node = testSwitchNodeRef ∧
      (foreignPropertyRef.prop_id = "state" ∨ foreignPropertyRef.prop_id = "action")) ∧
    (SwitchNodePublisher.new testSwitchNodeRef testClient).match_parse foreignPropertyRef
      testSwitchDeviceDesc "on" = none :=
  ⟨rfl, rfl, by decide,
    (dispatch_filters_foreign_property_refs testClient testSwitchNodeRef foreignPropertyRef
      testSwitchDeviceDesc "on" rfl rfl).1 (by decide)⟩

/-- C10: dispatch is deterministic and stateless: a call leaves the
publisher and the device description unchanged, and a second call on the
state left by the first returns the same result, for the switch and light
scene dispatchers over all inputs; match_parse_event on identical inputs
likewise returns equal results. -/
theorem dispatch_deterministic_stateless :
    (∀ (p : SwitchNodePublisher) (property : PropertyRef) (desc : HomieDeviceDescription)
      (v : String),
      (p.match_parse_call property desc v).2.1 = p ∧
      (p.match_parse_call property desc v).2.2 = desc ∧
      ((p.match_parse_call property desc v).2.1.match_parse_call property
          (p.match_parse_call property desc v).2.2 v).1 =
        (p.match_parse_call property desc v).1) ∧
    (∀ (p : LightSceneNodePublisher) (property : PropertyRef) (desc : HomieDeviceDescription)
      (v : String),
      (p.match_parse_call property desc v).2.1 = p ∧
      (p.match_parse_call property desc v).2.2 = desc ∧
      ((p.match_parse_call property desc v).2.1.match_parse_call property
          (p.match_parse_call property desc v).2.2 v).1 =
        (p.match_parse_call property desc v).1) ∧
    (∀ (p : SwitchNodePublisher) (desc : HomieDeviceDescription) (e : Homie5Message),
      p.match_parse_event desc e = p.match_parse_event desc e) :=
  ⟨fun _ _ _ _ => ⟨rfl, rfl, rfl⟩, fun _ _ _ _ => ⟨rfl, rfl, rfl⟩, fun _ _ _ => rfl⟩
